import Mathlib

/-!
Shallow embedding of the core of `src/gum/backend-x86/gumstalker-x86.c`
(the x86 Stalker: a per-thread dynamic binary translation engine).

Pointers and guest addresses are modelled as `Nat` (with C `NULL = 0` where a
pointer is compared against `NULL`), C `gint`/`gint64` as `Int`, C `guint`/
`gsize` as `Nat`.  Guest memory is a byte map `Nat → Nat`.  Each definition
mirrors one function (or the relevant branch structure of one function) of the
source file; the source line ranges are given in the doc comments.

The file is organized as: data model and operation definitions first, then
the theorems about them.
-/

namespace GumStalkerX86

/-- `enum _GumExecCtxState` (gumstalker-x86.c:255-260). -/
inductive GumExecCtxState where
  | active
  | unfollowPending
  | destroyPending
  deriving DecidableEq, Repr

/-- The fields of `struct _GumExecBlock` (gumstalker-x86.c:269-284) that the
translation/backpatch decisions read.  `snapshot_area i` is the byte stored at
offset `i` from `gum_exec_block_get_snapshot_start (block)`, i.e. at
`code_start + code_size + i` (gumstalker-x86.c:3657-3661); the snapshot is kept
as its own map rather than as part of one flat memory.  `activation_target`
models the `GUM_EXEC_BLOCK_ACTIVATION_TARGET` bit of `flags`.
`recycle_count` is a C `gint`, hence `Int`. -/
structure GumExecBlock where
  real_start : Nat
  real_size : Nat
  code_start : Nat
  code_size : Nat
  capacity : Nat
  recycle_count : Int
  activation_target : Bool
  snapshot_area : Nat → Nat

/-- `memcmp (base, snap, n) == 0`: the `n` live guest bytes starting at `base`
equal the first `n` bytes of the snapshot area. -/
def gum_memcmp_eq (mem : Nat → Nat) (base : Nat) (snap : Nat → Nat) (n : Nat) : Bool :=
  (List.range n).all (fun i => mem (base + i) == snap i)

/-- The decision taken by `gum_exec_ctx_obtain_block_for` on a mapping hit. -/
inductive ObtainDecision where
  | reuse (block : GumExecBlock)
  | recompile

/-- `ObtainDecision` outcome discriminator (used to state results without
deciding equality of function-valued snapshot fields). -/
def ObtainDecision.isReuse : ObtainDecision → Bool
  | .reuse _ => true
  | .recompile => false

/-- The mapping-hit branch of `gum_exec_ctx_obtain_block_for`
(gumstalker-x86.c:2258-2278):

```
still_up_to_date =
    (trust_threshold >= 0 && block->recycle_count >= trust_threshold) ||
    memcmp (block->real_start, gum_exec_block_get_snapshot_start (block),
        block->real_size) == 0;
if (still_up_to_date) { if (trust_threshold > 0) block->recycle_count++; }
else { gum_exec_ctx_recompile_block (ctx, block); }
```

`mem` is the live guest memory at the time of the call. -/
def gum_exec_ctx_obtain_block_for_hit (trust_threshold : Int) (block : GumExecBlock)
    (mem : Nat → Nat) : ObtainDecision :=
  let still_up_to_date :=
    (decide (0 ≤ trust_threshold) && decide (trust_threshold ≤ block.recycle_count)) ||
    gum_memcmp_eq mem block.real_start block.snapshot_area block.real_size
  if still_up_to_date then
    ObtainDecision.reuse
      (if 0 < trust_threshold then
        { block with recycle_count := block.recycle_count + 1 }
      else
        block)
  else
    ObtainDecision.recompile

/-- The per-context data read by `gum_stalker_garbage_collect`
(gumstalker-x86.c:1009-1049): the atomic `state`, the owning `thread_id`, the
`destroy_pending_since` timestamp (`gint64`, microseconds), and the result of
`gum_process_has_thread (ctx->thread_id)` for this sweep, recorded as
`thread_exists`. -/
structure GcCtxView where
  state : GumExecCtxState
  thread_id : Nat
  destroy_pending_since : Int
  thread_exists : Bool
  deriving DecidableEq, Repr

/-- The per-context destroy condition of `gum_stalker_garbage_collect`
(gumstalker-x86.c:1026-1041):

```
destroy_pending_and_thread_likely_back_in_original_code =
    g_atomic_int_get (&ctx->state) == GUM_EXEC_CTX_DESTROY_PENDING &&
    (ctx->thread_id == current_thread_id ||
    now - ctx->destroy_pending_since > 20000);
if (destroy_pending_and_thread_likely_back_in_original_code ||
    !gum_process_has_thread (ctx->thread_id)) { ... destroy ... }
```

`now` is `g_get_monotonic_time ()` in microseconds, so `20000` is 20 ms. -/
def gum_stalker_gc_should_destroy (current_thread_id : Nat) (now : Int)
    (c : GcCtxView) : Bool :=
  (decide (c.state = GumExecCtxState.destroyPending) &&
    (decide (c.thread_id = current_thread_id) ||
     decide (now - c.destroy_pending_since > 20000))) ||
  !c.thread_exists

/-- `gum_stalker_garbage_collect` over the engine's context list
(gumstalker-x86.c:1020-1048).  Each destroyed context restarts the scan
(`goto rescan`); since destroying one context does not change another's
destroy condition within the sweep, the fixpoint of the rescan loop is the
filter below.  Returns the surviving contexts and `have_pending_garbage`
(`self->contexts != NULL` after the sweep). -/
def gum_stalker_garbage_collect (current_thread_id : Nat) (now : Int)
    (contexts : List GcCtxView) : List GcCtxView × Bool :=
  let remaining :=
    contexts.filter (fun c => !gum_stalker_gc_should_destroy current_thread_id now c)
  (remaining, !remaining.isEmpty)

/-- `gum_exec_ctx_may_now_backpatch` (gumstalker-x86.c:2127-2141):

```
if (g_atomic_int_get (&ctx->state) != GUM_EXEC_CTX_ACTIVE) return FALSE;
if ((target_block->flags & GUM_EXEC_BLOCK_ACTIVATION_TARGET) != 0) return FALSE;
if (target_block->recycle_count < ctx->stalker->trust_threshold) return FALSE;
return TRUE;
```
-/
def gum_exec_ctx_may_now_backpatch (state : GumExecCtxState) (trust_threshold : Int)
    (target_block : GumExecBlock) : Bool :=
  if state ≠ GumExecCtxState.active then false
  else if target_block.activation_target then false
  else if target_block.recycle_count < trust_threshold then false
  else true

/-- The contents of one originating translated site that a static backpatch
may overwrite.  `original` is the site as emitted by the compiler
(abstracted by its raw bytes); the `patched_*` forms record what each of the
three static backpatch flavors writes there: a sequence ending in
`jmp block->code_start`, with the call flavor additionally embedding the
return addresses it passes to the stack-push helper. -/
inductive SiteCode where
  | original (raw : Nat)
  | patched_call (target_code_start ret_real_address ret_code_address : Nat)
  | patched_jmp (target_code_start : Nat)
  | patched_ret (target_code_start : Nat)
  deriving DecidableEq, Repr

/-- `gum_exec_block_backpatch_call` (gumstalker-x86.c:3681-3769): returns with
the site untouched when `block == NULL` (`just_unfollowed`) or when
`gum_exec_ctx_may_now_backpatch` refuses; otherwise rewrites the site with
the push-return-pair/jump sequence targeting `block->code_start`. -/
def gum_exec_block_backpatch_call (block : Option GumExecBlock)
    (state : GumExecCtxState) (trust_threshold : Int)
    (ret_real_address ret_code_address : Nat) (site : SiteCode) : SiteCode :=
  match block with
  | none => site
  | some b =>
      if gum_exec_ctx_may_now_backpatch state trust_threshold b then
        SiteCode.patched_call b.code_start ret_real_address ret_code_address
      else
        site

/-- `gum_exec_block_backpatch_jmp` (gumstalker-x86.c:3771-3825): same gating,
writes `jmp block->code_start` (after an epilog when a prolog was open). -/
def gum_exec_block_backpatch_jmp (block : Option GumExecBlock)
    (state : GumExecCtxState) (trust_threshold : Int) (site : SiteCode) : SiteCode :=
  match block with
  | none => site
  | some b =>
      if gum_exec_ctx_may_now_backpatch state trust_threshold b then
        SiteCode.patched_jmp b.code_start
      else
        site

/-- `gum_exec_block_backpatch_ret` (gumstalker-x86.c:3827-3875): same gating,
writes `jmp block->code_start`. -/
def gum_exec_block_backpatch_ret (block : Option GumExecBlock)
    (state : GumExecCtxState) (trust_threshold : Int) (site : SiteCode) : SiteCode :=
  match block with
  | none => site
  | some b =>
      if gum_exec_ctx_may_now_backpatch state trust_threshold b then
        SiteCode.patched_ret b.code_start
      else
        site

/-- An `IcEntry` array embedded in an indirect site, as a list of
`(real_start, code_start)` pairs (`struct _GumIcEntry`,
gumstalker-x86.c:432-436).  Pointers are `Nat` with `NULL = 0`; an empty
entry has `real_start = 0` (and `code_start = GUM_IC_MAGIC_EMPTY`). -/
abbrev IcEntries := List (Nat × Nat)

/-- The scan loop of `gum_exec_block_backpatch_inline_cache`
(gumstalker-x86.c:3900-3932):

```
for (i = 0; i != stalker->ic_entries; i++) {
  if (ic_entries[i].real_start == block->real_start) return;
  if (ic_entries[i].real_start != NULL) continue;
  ic_entries[i].real_start = block->real_start;
  ic_entries[i].code_start = block->code_start;
  ... return;
}
```
-/
def gum_ic_entries_backpatch (target_real target_code : Nat) : IcEntries → IcEntries
  | [] => []
  | e :: rest =>
      if e.1 = target_real then e :: rest
      else if e.1 ≠ 0 then e :: gum_ic_entries_backpatch target_real target_code rest
      else (target_real, target_code) :: rest

/-- `gum_exec_block_backpatch_inline_cache` (gumstalker-x86.c:3877-3933):
returns the site's entries untouched when `block == NULL` or when
`gum_exec_ctx_may_now_backpatch` refuses, and otherwise runs the scan loop
with the target block's `real_start`/`code_start`. -/
def gum_exec_block_backpatch_inline_cache (block : Option GumExecBlock)
    (state : GumExecCtxState) (trust_threshold : Int)
    (entries : IcEntries) : IcEntries :=
  match block with
  | none => entries
  | some b =>
      if gum_exec_ctx_may_now_backpatch state trust_threshold b then
        gum_ic_entries_backpatch b.real_start b.code_start entries
      else
        entries

/-- Reachable shape of a site's IC array: every populated entry precedes
every empty one.  Sites are emitted with all entries empty
(gumstalker-x86.c:4331-4335) and only the scan loop above writes them, always
into the first empty slot, so every array occurring at a site satisfies
this. -/
def ic_entries_wf : IcEntries → Bool
  | [] => true
  | e :: rest => if e.1 = 0 then rest.all (fun p => p.1 == 0) else ic_entries_wf rest

/-- Definition following the claim's words: write the `(real, code)` pair into
the first entry whose `real_start` is null, leaving everything else
untouched (and doing nothing when no entry is empty). -/
def ic_write_first_empty (target_real target_code : Nat) : IcEntries → IcEntries
  | [] => []
  | e :: rest =>
      if e.1 = 0 then (target_real, target_code) :: rest
      else e :: ic_write_first_empty target_real target_code rest

/-- `gum_stalker_snapshot_space_needed_for` (gumstalker-x86.c:1851-1856):

```
return (self->trust_threshold != 0) ? real_size : 0;
```
-/
def gum_stalker_snapshot_space_needed_for (trust_threshold : Int) (real_size : Nat) : Nat :=
  if trust_threshold ≠ 0 then real_size else 0

/-- `gum_exec_block_commit` (gumstalker-x86.c:3614-3630): copies
`snapshot_space_needed_for (stalker, real_size)` guest bytes to the snapshot
area right after the translated code and sets
`capacity = code_size + snapshot_size` (the slab reserve and the freeze are
memory-protection effects outside this model).  `mem` is the live guest
memory at commit time. -/
def gum_exec_block_commit (trust_threshold : Int) (mem : Nat → Nat)
    (block : GumExecBlock) : GumExecBlock :=
  let snapshot_size := gum_stalker_snapshot_space_needed_for trust_threshold block.real_size
  { block with
    snapshot_area := fun i => if i < snapshot_size then mem (block.real_start + i)
      else block.snapshot_area i,
    capacity := block.code_size + snapshot_size }

/-- `sizeof (GumExecFrame)`: two pointers (`struct _GumExecFrame`,
gumstalker-x86.c:291-295), 16 bytes on 64-bit. -/
def sizeof_GumExecFrame : Nat := 16

/-- Machine word modulus for 64-bit pointer arithmetic. -/
def wordModulus : Nat := 2 ^ 64

/-- The shadow-stack state the push helper reads and writes:
`ctx->current_frame` (an address inside the frames page) and the frames
memory, mapping a frame base address to the `(real_address, code_address)`
pair stored there. -/
structure ShadowStackState where
  current_frame : Nat
  frame_mem : Nat → Nat × Nat

/-- Semantics of the helper emitted by `gum_exec_ctx_write_stack_push_helper`
(gumstalker-x86.c:3028-3057), with `XCX = real return address` and
`XDX = translated return address` as loaded by the caller:

```
xax = ctx->current_frame;
if ((xax & (page_size - 1)) == 0) return;           /* test/je skip  */
xax -= sizeof (GumExecFrame);
xax->real_address = xcx; xax->code_address = xdx;
ctx->current_frame = xax;
```
-/
def gum_stack_push_helper_run (page_size : Nat) (s : ShadowStackState)
    (real_address code_address : Nat) : ShadowStackState :=
  if s.current_frame &&& (page_size - 1) = 0 then
    s
  else
    let cf := (s.current_frame + (wordModulus - sizeof_GumExecFrame)) % wordModulus
    { current_frame := cf,
      frame_mem := fun a => if a = cf then (real_address, code_address)
        else s.frame_mem a }

/-- The `GumExecCtx` fields read and written by
`gum_exec_ctx_maybe_unfollow` / `gum_exec_ctx_unfollow`
(gumstalker-x86.c:2073-2100): the atomic run `state`, the `pending_calls`
counter (`guint`), `current_block`, `resume_at` and the
`destroy_pending_since` timestamp. -/
structure UnfollowCtx where
  state : GumExecCtxState
  pending_calls : Nat
  current_block : Option Nat
  resume_at : Option Nat
  destroy_pending_since : Int
  deriving DecidableEq, Repr

/-- `gum_exec_ctx_unfollow` (gumstalker-x86.c:2088-2100): clears
`current_block`, records `resume_at`, stamps `destroy_pending_since` with
the current monotonic time `now` and atomically moves the state to
`destroy_pending` (the TLS clear is outside this model). -/
def gum_exec_ctx_unfollow (now : Int) (c : UnfollowCtx) (resume_at : Nat) : UnfollowCtx :=
  { c with
    current_block := none,
    resume_at := some resume_at,
    destroy_pending_since := now,
    state := GumExecCtxState.destroyPending }

/-- `gum_exec_ctx_maybe_unfollow` (gumstalker-x86.c:2073-2086):

```
if (g_atomic_int_get (&ctx->state) != GUM_EXEC_CTX_UNFOLLOW_PENDING)
  return FALSE;
if (ctx->pending_calls > 0)
  return FALSE;
gum_exec_ctx_unfollow (ctx, resume_at);
return TRUE;
```
-/
def gum_exec_ctx_maybe_unfollow (now : Int) (c : UnfollowCtx) (resume_at : Nat) :
    Bool × UnfollowCtx :=
  if c.state ≠ GumExecCtxState.unfollowPending then (false, c)
  else if 0 < c.pending_calls then (false, c)
  else (true, gum_exec_ctx_unfollow now c resume_at)

/-- `GUM_IC_MAGIC_EMPTY` for 64-bit (gumstalker-x86.c:46). -/
def GUM_IC_MAGIC_EMPTY : Nat := 0xbaadd00ddeadface

/-- `sizeof (gpointer)` on the 64-bit build. -/
def sizeof_gpointer : Nat := 8

/-- The lower bound of the sole construction tunable, from
`gum_stalker_class_init` (gumstalker-x86.c:707-710):
`g_param_spec_uint ("ic-entries", ..., 2, 32, 2, ... G_PARAM_CONSTRUCT_ONLY ...)`. -/
def ic_entries_minimum : Nat := 2

/-- Upper bound of the `ic-entries` param spec (gumstalker-x86.c:709). -/
def ic_entries_maximum : Nat := 32

/-- Default of the `ic-entries` param spec (gumstalker-x86.c:709). -/
def ic_entries_default : Nat := 2

/-- Modelled from the spec: the GObject construct-time handling of the
construct-only uint property `ic-entries` is GLib code outside this
repository; per the spec the tunable is "an integer in `[2, 32]` ...
Default 2", i.e. an absent value yields the param-spec default and a
supplied value is validated into the param spec's `[minimum, maximum]`
range.  The bounds and default themselves come from `gum_stalker_class_init`
(gumstalker-x86.c:707-710); being `G_PARAM_CONSTRUCT_ONLY`, the value never
changes after construction, which the model reflects by having no setter. -/
def gum_stalker_new_ic_entries (requested : Option Nat) : Nat :=
  match requested with
  | none => ic_entries_default
  | some v => max ic_entries_minimum (min ic_entries_maximum v)

/-- `gum_stalker_get_ic_entry_size` (gumstalker-x86.c:2532-2536):

```
return self->ic_entries * (2 * sizeof (gpointer));
```
-/
def gum_stalker_get_ic_entry_size (ic_entries : Nat) : Nat :=
  ic_entries * (2 * sizeof_gpointer)

/-- The inline-cache array emitted inside an indirect call/jmp site by
`gum_exec_block_write_call_invoke_code` (gumstalker-x86.c:4329-4335): a loop
writing `stalker->ic_entries` entries, each a `NULL` pointer word followed
by a `GUM_IC_MAGIC_EMPTY` word. -/
def gum_exec_block_emit_ic_entries (ic_entries : Nat) : IcEntries :=
  List.replicate ic_entries (0, GUM_IC_MAGIC_EMPTY)

/-- The data `gum_exec_ctx_compile_block` inspects after the final writer
flush (gumstalker-x86.c:2433-2438): whether `gum_x86_writer_flush` reported
every label resolved, the relocator's input cursor and start (whose
difference is the block's `input_size`) and the writer offset
(`output_size`).  The writer itself is an external collaborator; its
verdict is carried as a field. -/
structure CompileEnd where
  all_labels_resolved : Bool
  input_cur : Nat
  input_start : Nat
  writer_offset : Nat
  deriving DecidableEq, Repr

/-- How `gum_exec_ctx_compile_block` terminates: normal return with
`(*input_size, *output_size)` filled in, or process abort via `g_error`
(which never returns). -/
inductive CompileOutcome where
  | ok (input_size output_size : Nat)
  | fatal (msg : String)
  deriving DecidableEq, Repr

/-- The tail of `gum_exec_ctx_compile_block` (gumstalker-x86.c:2433-2438):

```
all_labels_resolved = gum_x86_writer_flush (cw);
if (!all_labels_resolved)
  g_error ("Failed to resolve labels");
*input_size = rl->input_cur - rl->input_start;
*output_size = gum_x86_writer_offset (cw);
```
-/
def gum_exec_ctx_compile_block_finish (e : CompileEnd) : CompileOutcome :=
  if !e.all_labels_resolved then
    CompileOutcome.fatal "Failed to resolve labels"
  else
    CompileOutcome.ok (e.input_cur - e.input_start) e.writer_offset

/-- The engine-wide probe bookkeeping touched by
`gum_stalker_remove_call_probe` (gumstalker-x86.c:1694-1751):
`probe_target_by_id` (id → target address), `probe_array_by_address`
(target address → ordered probe-id array; the ref-counted probe records are
abstracted by their ids) and the `any_probes_attached` flag. -/
structure ProbeTables where
  probe_target_by_id : List (Nat × Nat)
  probe_array_by_address : List (Nat × List Nat)
  any_probes_attached : Bool
  deriving DecidableEq, Repr

/-- `g_hash_table_lookup (probe_target_by_id, id)`; `none` models `NULL`
(no probe with this id is registered). -/
def probe_lookup_target (table : List (Nat × Nat)) (id : Nat) : Option Nat :=
  match table.find? (fun p => p.1 == id) with
  | some p => some p.2
  | none => none

/-- `gum_stalker_remove_call_probe` (gumstalker-x86.c:1694-1751), minus the
activation dance and the lock.  Returns the updated tables and, when the
removed probe was the last for its target (`is_last_for_target`), the
target address handed to `gum_stalker_invalidate_for_all_threads`; `none`
means no invalidation was triggered.

```
target_address = g_hash_table_lookup (probe_target_by_id, id);
if (target_address != NULL) {
  g_hash_table_remove (probe_target_by_id, id);
  probes = g_hash_table_lookup (probe_array_by_address, target_address);
  <remove the first probe whose id matches>
  if (probes->len == 0) {
    g_hash_table_remove (probe_array_by_address, target_address);
    is_last_for_target = TRUE;
  }
  any_probes_attached = g_hash_table_size (probe_array_by_address) != 0;
}
if (is_last_for_target)
  gum_stalker_invalidate_for_all_threads (self, target_address, &activation);
```
-/
def gum_stalker_remove_call_probe (st : ProbeTables) (id : Nat) :
    ProbeTables × Option Nat :=
  match probe_lookup_target st.probe_target_by_id id with
  | none => (st, none)
  | some target =>
      let by_id := st.probe_target_by_id.eraseP (fun p => p.1 == id)
      let probes :=
        ((st.probe_array_by_address.find? (fun p => p.1 == target)).map Prod.snd).getD []
      let remaining := probes.eraseP (fun pid => pid == id)
      if remaining.isEmpty then
        let arr := st.probe_array_by_address.eraseP (fun p => p.1 == target)
        ({ probe_target_by_id := by_id, probe_array_by_address := arr,
           any_probes_attached := !arr.isEmpty }, some target)
      else
        let arr := st.probe_array_by_address.map
          (fun p => if p.1 == target then (p.1, remaining) else p)
        ({ probe_target_by_id := by_id, probe_array_by_address := arr,
           any_probes_attached := !arr.isEmpty }, none)

/-! ## Theorems -/

/-- Claim C1, as the spec states it, is false on the code: with a negative
`trust_threshold` the block is NOT always recompiled.  Concretely, with
`trust_threshold = -1` and a one-byte block whose snapshot still equals the
live guest byte, `gum_exec_ctx_obtain_block_for` reuses the block (the
`memcmp` disjunct of `still_up_to_date` holds even though
`trust_threshold < 0`). -/
theorem C1_negative_threshold_reuses :
    (-1 : Int) < 0 ∧
    (gum_exec_ctx_obtain_block_for_hit (-1)
      { real_start := 0x1000, real_size := 1, code_start := 0x7000, code_size := 32,
        capacity := 33, recycle_count := 0, activation_target := false,
        snapshot_area := fun _ => 0x90 }
      (fun _ => 0x90)).isReuse = true :=
  ⟨by decide, rfl⟩

/-- Claim C1 (amended): on a mapping hit,
`gum_exec_ctx_obtain_block_for` recompiles the block exactly when neither
(`trust_threshold ≥ 0` and `recycle_count ≥ trust_threshold`) nor the
snapshot byte-compare holds; whenever one of the two holds the block is
reused, with `recycle_count` incremented exactly when `trust_threshold > 0`;
in particular a negative `trust_threshold` always falls through to the
byte-compare (reuse as-is on equality, recompile on difference) rather than
always recompiling. -/
theorem C1_obtain_block_hit_decision (t : Int) (b : GumExecBlock) (mem : Nat → Nat) :
    (gum_exec_ctx_obtain_block_for_hit t b mem = ObtainDecision.recompile ↔
      ¬ ((0 ≤ t ∧ t ≤ b.recycle_count) ∨
         gum_memcmp_eq mem b.real_start b.snapshot_area b.real_size = true)) ∧
    (((0 ≤ t ∧ t ≤ b.recycle_count) ∨
      gum_memcmp_eq mem b.real_start b.snapshot_area b.real_size = true) →
      gum_exec_ctx_obtain_block_for_hit t b mem =
        ObtainDecision.reuse
          (if 0 < t then { b with recycle_count := b.recycle_count + 1 } else b)) ∧
    (t < 0 →
      gum_exec_ctx_obtain_block_for_hit t b mem =
        (if gum_memcmp_eq mem b.real_start b.snapshot_area b.real_size then
          ObtainDecision.reuse b
        else
          ObtainDecision.recompile)) := by
  unfold gum_exec_ctx_obtain_block_for_hit
  by_cases hm : gum_memcmp_eq mem b.real_start b.snapshot_area b.real_size = true
  · by_cases ht0 : (0 : Int) ≤ t
    · by_cases htr : t ≤ b.recycle_count
      · simp [hm, ht0, htr]
      · simp [hm, ht0, htr]
    · simp [hm, ht0]
      omega
  · simp only [Bool.not_eq_true] at hm
    by_cases ht0 : (0 : Int) ≤ t
    · by_cases htr : t ≤ b.recycle_count
      · simp [hm, ht0, htr]
      · simp [hm, ht0, htr]
    · simp [hm, ht0]

/-- Witness for `C1_obtain_block_hit_decision`: instantiated at
`trust_threshold = 1` with a block whose `recycle_count` is `3`, the reuse
branch applies and increments the recycle count. -/
theorem C1_obtain_block_hit_decision_witness :
    gum_exec_ctx_obtain_block_for_hit 1
      { real_start := 0x1000, real_size := 1, code_start := 0x7000, code_size := 32,
        capacity := 33, recycle_count := 3, activation_target := false,
        snapshot_area := fun _ => 0 }
      (fun _ => 0x90) =
    ObtainDecision.reuse
      { real_start := 0x1000, real_size := 1, code_start := 0x7000, code_size := 32,
        capacity := 33, recycle_count := 4, activation_target := false,
        snapshot_area := fun _ => 0 } := by
  have h := (C1_obtain_block_hit_decision 1
    { real_start := 0x1000, real_size := 1, code_start := 0x7000, code_size := 32,
      capacity := 33, recycle_count := 3, activation_target := false,
      snapshot_area := fun _ => 0 }
    (fun _ => 0x90)).2.1 (Or.inl ⟨by decide, by decide⟩)
  exact h

/-- Claim C2, as the spec states it, is false on the code: a context that is
NOT in `destroy_pending` is destroyed by garbage collection whenever
`gum_process_has_thread` reports its thread gone, because the
`!gum_process_has_thread (...)` disjunct sits outside the
`destroy_pending` conjunction.  Concretely an `active` context whose thread
no longer exists is destroyed. -/
theorem C2_active_ctx_destroyed_when_thread_gone :
    GumExecCtxState.active ≠ GumExecCtxState.destroyPending ∧
    gum_stalker_gc_should_destroy 1 0
      { state := GumExecCtxState.active, thread_id := 2,
        destroy_pending_since := 0, thread_exists := false } = true := by
  decide

/-- Claim C2 (amended): `gum_stalker_garbage_collect` destroys a context
exactly when either (i) the context is in `destroy_pending` and (a) the
collection runs on the owning thread or (b) more than 20 ms (20000 µs of
monotonic time) have elapsed since it entered `destroy_pending`, or (ii) the
OS reports the context's thread no longer exists — the thread-vanished test
applies to every context regardless of its state.  A context in the engine
list survives the sweep exactly when this condition fails. -/
theorem C2_gc_destroy_condition (tid : Nat) (now : Int) (c : GcCtxView)
    (contexts : List GcCtxView) (hc : c ∈ contexts) :
    (gum_stalker_gc_should_destroy tid now c = true ↔
      ((c.state = GumExecCtxState.destroyPending ∧
        (c.thread_id = tid ∨ now - c.destroy_pending_since > 20000)) ∨
       c.thread_exists = false)) ∧
    (c ∈ (gum_stalker_garbage_collect tid now contexts).1 ↔
      gum_stalker_gc_should_destroy tid now c = false) := by
  constructor
  · simp [gum_stalker_gc_should_destroy]
  · simp [gum_stalker_garbage_collect, List.mem_filter, hc]

/-- Witness for `C2_gc_destroy_condition`: a `destroy_pending` context whose
21 ms have elapsed is destroyed (it does not survive the sweep). -/
theorem C2_gc_destroy_condition_witness :
    (gum_stalker_gc_should_destroy 1 21001
      { state := GumExecCtxState.destroyPending, thread_id := 2,
        destroy_pending_since := 0, thread_exists := true } = true ↔
      (((GumExecCtxState.destroyPending = GumExecCtxState.destroyPending ∧
        ((2 : Nat) = 1 ∨ (21001 : Int) - 0 > 20000)) ∨ true = false))) ∧
    ({ state := GumExecCtxState.destroyPending, thread_id := 2,
        destroy_pending_since := 0, thread_exists := true } ∈
      (gum_stalker_garbage_collect 1 21001
        [{ state := GumExecCtxState.destroyPending, thread_id := 2,
           destroy_pending_since := 0, thread_exists := true }]).1 ↔
      gum_stalker_gc_should_destroy 1 21001
        { state := GumExecCtxState.destroyPending, thread_id := 2,
          destroy_pending_since := 0, thread_exists := true } = false) :=
  C2_gc_destroy_condition 1 21001
    { state := GumExecCtxState.destroyPending, thread_id := 2,
      destroy_pending_since := 0, thread_exists := true }
    [{ state := GumExecCtxState.destroyPending, thread_id := 2,
       destroy_pending_since := 0, thread_exists := true }]
    (List.mem_singleton.mpr rfl)

/-- Claim C3: each static backpatch flavor (call, jmp, ret) rewrites the
originating site only when `gum_exec_ctx_may_now_backpatch` allows it, and
that check holds exactly when the context is `active`, the target block does
not carry the activation-target flag, and the target block's
`recycle_count` is at least the stalker's `trust_threshold`.  When the check
fails (or the target block is gone because of an unfollow), every flavor
returns with the site unchanged; when it holds, every flavor rewrites the
site to jump to the target block's `code_start`. -/
theorem C3_static_backpatch_preconditions (state : GumExecCtxState)
    (trust_threshold : Int) (rr rc : Nat) (site : SiteCode) :
    (∀ tb, gum_exec_ctx_may_now_backpatch state trust_threshold tb = true ↔
      (state = GumExecCtxState.active ∧ tb.activation_target = false ∧
       trust_threshold ≤ tb.recycle_count)) ∧
    (gum_exec_block_backpatch_call none state trust_threshold rr rc site = site ∧
     gum_exec_block_backpatch_jmp none state trust_threshold site = site ∧
     gum_exec_block_backpatch_ret none state trust_threshold site = site) ∧
    (∀ b, gum_exec_ctx_may_now_backpatch state trust_threshold b = false →
      gum_exec_block_backpatch_call (some b) state trust_threshold rr rc site = site ∧
      gum_exec_block_backpatch_jmp (some b) state trust_threshold site = site ∧
      gum_exec_block_backpatch_ret (some b) state trust_threshold site = site) ∧
    (∀ b, gum_exec_ctx_may_now_backpatch state trust_threshold b = true →
      gum_exec_block_backpatch_call (some b) state trust_threshold rr rc site =
        SiteCode.patched_call b.code_start rr rc ∧
      gum_exec_block_backpatch_jmp (some b) state trust_threshold site =
        SiteCode.patched_jmp b.code_start ∧
      gum_exec_block_backpatch_ret (some b) state trust_threshold site =
        SiteCode.patched_ret b.code_start) := by
  refine ⟨?_, ?_, ?_, ?_⟩
  · intro tb
    unfold gum_exec_ctx_may_now_backpatch
    by_cases hs : state = GumExecCtxState.active
    · by_cases ha : tb.activation_target
      · simp [hs, ha]
      · by_cases hr : tb.recycle_count < trust_threshold
        · simp [hs, ha, hr]
        · simp [hs, ha, hr]
          omega
    · simp [hs]
  · exact ⟨rfl, rfl, rfl⟩
  · intro b hb
    simp [gum_exec_block_backpatch_call, gum_exec_block_backpatch_jmp,
      gum_exec_block_backpatch_ret, hb]
  · intro b hb
    simp [gum_exec_block_backpatch_call, gum_exec_block_backpatch_jmp,
      gum_exec_block_backpatch_ret, hb]

/-- Witness for `C3_static_backpatch_preconditions`: with an inactive
(`unfollow_pending`) context, the ret flavor leaves a concrete site
unchanged. -/
theorem C3_static_backpatch_preconditions_witness :
    gum_exec_block_backpatch_ret
      (some { real_start := 0x1000, real_size := 4, code_start := 0x7000,
              code_size := 64, capacity := 68, recycle_count := 5,
              activation_target := false, snapshot_area := fun _ => 0 })
      GumExecCtxState.unfollowPending 1 (SiteCode.original 42) =
    SiteCode.original 42 :=
  ((C3_static_backpatch_preconditions GumExecCtxState.unfollowPending 1 0 0
      (SiteCode.original 42)).2.2.1
    { real_start := 0x1000, real_size := 4, code_start := 0x7000,
      code_size := 64, capacity := 68, recycle_count := 5,
      activation_target := false, snapshot_area := fun _ => 0 } rfl).2.2

/-- The scan loop never changes an entry whose `real_start` is non-null. -/
theorem gum_ic_entries_backpatch_preserves_populated (tr tc : Nat) :
    ∀ (l : IcEntries) (i x y : Nat), l[i]? = some (x, y) → x ≠ 0 →
      (gum_ic_entries_backpatch tr tc l)[i]? = some (x, y) := by
  intro l
  induction l with
  | nil => intro i x y h _; simp at h
  | cons e rest ih =>
      intro i x y h hx
      unfold gum_ic_entries_backpatch
      by_cases h1 : e.1 = tr
      · simpa [h1] using h
      · by_cases h2 : e.1 ≠ 0
        · cases i with
          | zero => simpa [h1, h2] using h
          | succ j =>
              simp only [List.getElem?_cons_succ] at h
              simp [h1, h2, ih j x y h hx]
        · cases i with
          | zero =>
              simp only [List.getElem?_cons_zero, Option.some.injEq] at h
              have he0 : e.1 = 0 := by simpa using h2
              rw [h] at he0
              exact absurd he0 hx
          | succ j =>
              simp only [List.getElem?_cons_succ] at h
              simpa [h1, h2] using h

/-- On a well-formed array that already contains the target, the scan loop
returns without writing anything. -/
theorem gum_ic_entries_backpatch_hit_unchanged (tr tc : Nat) :
    ∀ (l : IcEntries), ic_entries_wf l = true → (∃ p ∈ l, p.1 = tr) →
      gum_ic_entries_backpatch tr tc l = l := by
  intro l
  induction l with
  | nil => intro _ _; rfl
  | cons e rest ih =>
      intro hwf hmem
      unfold gum_ic_entries_backpatch
      by_cases h1 : e.1 = tr
      · simp [h1]
      · by_cases h2 : e.1 ≠ 0
        · have hwf' : ic_entries_wf rest = true := by
            unfold ic_entries_wf at hwf
            simpa [if_neg (by simpa using h2)] using hwf
          have hmem' : ∃ p ∈ rest, p.1 = tr := by
            rcases hmem with ⟨p, hp, hptr⟩
            rcases List.mem_cons.mp hp with hpe | hpr
            · exact absurd (hpe ▸ hptr) h1
            · exact ⟨p, hpr, hptr⟩
          simp [h1, h2, ih hwf' hmem']
        · exfalso
          have he0 : e.1 = 0 := by simpa using h2
          have hall : ∀ p ∈ rest, p.1 = 0 := by
            unfold ic_entries_wf at hwf
            rw [if_pos he0] at hwf
            intro p hp
            simpa using List.all_eq_true.mp hwf p hp
          rcases hmem with ⟨p, hp, hptr⟩
          rcases List.mem_cons.mp hp with hpe | hpr
          · exact h1 (hpe ▸ hptr)
          · exact h1 (he0.trans ((hall p hpr).symm.trans hptr))

/-- When no entry matches the target, the scan loop writes the pair into
exactly the first empty entry (and nowhere else). -/
theorem gum_ic_entries_backpatch_miss_writes_first_empty (tr tc : Nat) :
    ∀ (l : IcEntries), (∀ p ∈ l, p.1 ≠ tr) →
      gum_ic_entries_backpatch tr tc l = ic_write_first_empty tr tc l := by
  intro l
  induction l with
  | nil => intro _; rfl
  | cons e rest ih =>
      intro hno
      have h1 : e.1 ≠ tr := hno e (List.mem_cons_self e rest)
      unfold gum_ic_entries_backpatch ic_write_first_empty
      by_cases h2 : e.1 = 0
      · rw [if_neg h1, if_neg (fun hn => hn h2), if_pos h2]
      · have hno' : ∀ p ∈ rest, p.1 ≠ tr := fun p hp => hno p (List.mem_cons_of_mem e hp)
        simp [h1, h2, ih hno']

/-- An all-empty IC array is well formed. -/
theorem ic_all_zero_wf : ∀ (l : IcEntries), (∀ p ∈ l, p.1 = 0) →
    ic_entries_wf l = true := by
  intro l
  induction l with
  | nil => intro _; rfl
  | cons e rest ih =>
      intro hall
      unfold ic_entries_wf
      rw [if_pos (hall e (List.mem_cons_self e rest))]
      exact List.all_eq_true.mpr fun p hp =>
        by simpa using hall p (List.mem_cons_of_mem e hp)

/-- Writing into the first empty entry keeps the array well formed. -/
theorem ic_write_first_empty_preserves_wf (tr tc : Nat) :
    ∀ (l : IcEntries), ic_entries_wf l = true →
      ic_entries_wf (ic_write_first_empty tr tc l) = true := by
  intro l
  induction l with
  | nil => intro _; rfl
  | cons e rest ih =>
      intro hwf
      unfold ic_write_first_empty
      by_cases h2 : e.1 = 0
      · rw [if_pos h2]
        unfold ic_entries_wf at hwf
        rw [if_pos h2] at hwf
        have hall : ∀ p ∈ rest, p.1 = 0 := fun p hp =>
          by simpa using List.all_eq_true.mp hwf p hp
        unfold ic_entries_wf
        by_cases htr : tr = 0
        · rw [if_pos htr]
          exact List.all_eq_true.mpr fun p hp => by simpa using hall p hp
        · rw [if_neg htr]
          exact ic_all_zero_wf rest hall
      · rw [if_neg h2]
        unfold ic_entries_wf at hwf ⊢
        rw [if_neg h2] at hwf ⊢
        exact ih hwf

/-- Claim C4: `gum_exec_block_backpatch_inline_cache` never overwrites a
populated inline-cache entry — every entry with a non-null `real_start`
survives any call verbatim, at its position.  Site arrays are emitted
all-empty and only this function writes them, so they always keep populated
entries before empty ones (`ic_entries_wf`); on such an array, if some entry
already holds the target block's `real_start` the call returns without
writing anything, and if no entry does, the `(real_start, code_start)` pair
is written into exactly the first entry whose `real_start` is null.  The
freshly emitted all-empty array is well formed and every call preserves
well-formedness, so the hypothesis holds at every reachable site. -/
theorem C4_inline_cache_backpatch (state : GumExecCtxState) (trust_threshold : Int)
    (b : GumExecBlock) (entries : IcEntries) :
    (∀ (block : Option GumExecBlock) (i x y : Nat),
      entries[i]? = some (x, y) → x ≠ 0 →
      (gum_exec_block_backpatch_inline_cache block state trust_threshold
        entries)[i]? = some (x, y)) ∧
    (gum_exec_ctx_may_now_backpatch state trust_threshold b = true →
      ic_entries_wf entries = true → (∃ p ∈ entries, p.1 = b.real_start) →
      gum_exec_block_backpatch_inline_cache (some b) state trust_threshold
        entries = entries) ∧
    (gum_exec_ctx_may_now_backpatch state trust_threshold b = true →
      (∀ p ∈ entries, p.1 ≠ b.real_start) →
      gum_exec_block_backpatch_inline_cache (some b) state trust_threshold
        entries = ic_write_first_empty b.real_start b.code_start entries) ∧
    (gum_exec_ctx_may_now_backpatch state trust_threshold b = false →
      gum_exec_block_backpatch_inline_cache (some b) state trust_threshold
        entries = entries) ∧
    (∀ n, ic_entries_wf (gum_exec_block_emit_ic_entries n) = true) ∧
    (∀ (block : Option GumExecBlock),
      ic_entries_wf entries = true →
      ic_entries_wf (gum_exec_block_backpatch_inline_cache block state
        trust_threshold entries) = true) := by
  refine ⟨?_, ?_, ?_, ?_, ?_, ?_⟩
  · intro block i x y h hx
    match block with
    | none => exact h
    | some b0 =>
        unfold gum_exec_block_backpatch_inline_cache
        by_cases hm : gum_exec_ctx_may_now_backpatch state trust_threshold b0
        · simpa [hm] using
            gum_ic_entries_backpatch_preserves_populated b0.real_start b0.code_start
              entries i x y h hx
        · simpa [hm] using h
  · intro hm hwf hmem
    unfold gum_exec_block_backpatch_inline_cache
    simp [hm, gum_ic_entries_backpatch_hit_unchanged b.real_start b.code_start
      entries hwf hmem]
  · intro hm hno
    unfold gum_exec_block_backpatch_inline_cache
    simp [hm, gum_ic_entries_backpatch_miss_writes_first_empty b.real_start
      b.code_start entries hno]
  · intro hm
    unfold gum_exec_block_backpatch_inline_cache
    simp [hm]
  · intro n
    cases n with
    | zero => rfl
    | succ k =>
        simp [gum_exec_block_emit_ic_entries, List.replicate_succ, ic_entries_wf,
          List.all_eq_true]
  · intro block hwf
    match block with
    | none => exact hwf
    | some b0 =>
        have hred : gum_exec_block_backpatch_inline_cache (some b0) state
            trust_threshold entries =
            if gum_exec_ctx_may_now_backpatch state trust_threshold b0 = true then
              gum_ic_entries_backpatch b0.real_start b0.code_start entries
            else entries := rfl
        rw [hred]
        by_cases hm : gum_exec_ctx_may_now_backpatch state trust_threshold b0 = true
        · rw [if_pos hm]
          by_cases hmem : ∃ p ∈ entries, p.1 = b0.real_start
          · rw [gum_ic_entries_backpatch_hit_unchanged b0.real_start
              b0.code_start entries hwf hmem]
            exact hwf
          · push_neg at hmem
            rw [gum_ic_entries_backpatch_miss_writes_first_empty
              b0.real_start b0.code_start entries hmem]
            exact ic_write_first_empty_preserves_wf b0.real_start b0.code_start
              entries hwf
        · rw [if_neg hm]
          exact hwf

/-- Witness for `C4_inline_cache_backpatch`: on the concrete two-entry array
`[(0x2000, 0x8000), (0, magic)]`, a miss for target `0x3000` under an active
context writes into the second (first empty) entry. -/
theorem C4_inline_cache_backpatch_witness :
    gum_exec_block_backpatch_inline_cache
      (some { real_start := 0x3000, real_size := 4, code_start := 0x9000,
              code_size := 64, capacity := 68, recycle_count := 2,
              activation_target := false, snapshot_area := fun _ => 0 })
      GumExecCtxState.active 1
      [(0x2000, 0x8000), (0, 0xbaadd00ddeadface)] =
    ic_write_first_empty 0x3000 0x9000 [(0x2000, 0x8000), (0, 0xbaadd00ddeadface)] :=
  (C4_inline_cache_backpatch GumExecCtxState.active 1
    { real_start := 0x3000, real_size := 4, code_start := 0x9000,
      code_size := 64, capacity := 68, recycle_count := 2,
      activation_target := false, snapshot_area := fun _ => 0 }
    [(0x2000, 0x8000), (0, 0xbaadd00ddeadface)]).2.2.1 rfl (by decide)

/-- Claim C5, as the spec states it, is false on the code: the snapshot space
is `real_size` whenever `trust_threshold != 0`, so a NEGATIVE trust
threshold also gets a snapshot; the space is not zero for
`trust_threshold = -1`. -/
theorem C5_negative_threshold_has_snapshot :
    (-1 : Int) < 0 ∧ gum_stalker_snapshot_space_needed_for (-1) 4 = 4 ∧
    gum_stalker_snapshot_space_needed_for (-1) 4 ≠ 0 := by
  refine ⟨by decide, rfl, by decide⟩

/-- Claim C5 (amended): `gum_exec_block_commit` appends a byte-for-byte copy
of the guest bytes, of length `real_size`, immediately after the translated
code exactly when `trust_threshold ≠ 0` (positive or negative); only when
`trust_threshold = 0` is the space computed by
`gum_stalker_snapshot_space_needed_for` zero and no snapshot byte copied. -/
theorem C5_commit_snapshot (t : Int) (mem : Nat → Nat) (b : GumExecBlock) :
    (t ≠ 0 →
      gum_stalker_snapshot_space_needed_for t b.real_size = b.real_size ∧
      (∀ i, i < b.real_size →
        (gum_exec_block_commit t mem b).snapshot_area i = mem (b.real_start + i)) ∧
      (gum_exec_block_commit t mem b).capacity = b.code_size + b.real_size) ∧
    (t = 0 →
      gum_stalker_snapshot_space_needed_for t b.real_size = 0 ∧
      (∀ i, (gum_exec_block_commit t mem b).snapshot_area i = b.snapshot_area i) ∧
      (gum_exec_block_commit t mem b).capacity = b.code_size) := by
  constructor
  · intro ht
    refine ⟨by simp [gum_stalker_snapshot_space_needed_for, ht], ?_, ?_⟩
    · intro i hi
      simp [gum_exec_block_commit, gum_stalker_snapshot_space_needed_for, ht, hi]
    · simp [gum_exec_block_commit, gum_stalker_snapshot_space_needed_for, ht]
  · intro ht
    subst ht
    refine ⟨rfl, ?_, ?_⟩
    · intro i
      simp [gum_exec_block_commit, gum_stalker_snapshot_space_needed_for]
    · simp [gum_exec_block_commit, gum_stalker_snapshot_space_needed_for]

/-- Witness for `C5_commit_snapshot`: at `trust_threshold = 1`, committing a
two-byte block copies both guest bytes into the snapshot area. -/
theorem C5_commit_snapshot_witness :
    (gum_exec_block_commit 1 (fun a => a + 7)
      { real_start := 0x1000, real_size := 2, code_start := 0x7000, code_size := 32,
        capacity := 0, recycle_count := 0, activation_target := false,
        snapshot_area := fun _ => 0 }).snapshot_area 1 = 0x1000 + 1 + 7 :=
  ((C5_commit_snapshot 1 (fun a => a + 7)
      { real_start := 0x1000, real_size := 2, code_start := 0x7000, code_size := 32,
        capacity := 0, recycle_count := 0, activation_target := false,
        snapshot_area := fun _ => 0 }).1 (by decide)).2.1 1 (by decide)

/-- Claim C6: the shadow-stack push helper is a no-op (both `current_frame`
and the frames memory unchanged) when `current_frame` has all page-offset
bits zero (the shadow stack is full), and otherwise decrements
`current_frame` by `sizeof (GumExecFrame)` and stores the
`(guest return address, translated return address)` pair at the new
`current_frame`, leaving every other frame untouched. -/
theorem C6_stack_push_helper (page_size : Nat) (s : ShadowStackState)
    (ra ca : Nat) :
    (s.current_frame &&& (page_size - 1) = 0 →
      gum_stack_push_helper_run page_size s ra ca = s) ∧
    (s.current_frame &&& (page_size - 1) ≠ 0 →
      (gum_stack_push_helper_run page_size s ra ca).current_frame =
        (s.current_frame + (wordModulus - sizeof_GumExecFrame)) % wordModulus ∧
      (gum_stack_push_helper_run page_size s ra ca).frame_mem
        ((s.current_frame + (wordModulus - sizeof_GumExecFrame)) % wordModulus) =
        (ra, ca) ∧
      (∀ a, a ≠ (s.current_frame + (wordModulus - sizeof_GumExecFrame)) % wordModulus →
        (gum_stack_push_helper_run page_size s ra ca).frame_mem a =
          s.frame_mem a)) := by
  constructor
  · intro h
    simp [gum_stack_push_helper_run, h]
  · intro h
    refine ⟨by simp [gum_stack_push_helper_run, h],
      by simp [gum_stack_push_helper_run, h], ?_⟩
    intro a ha
    simp [gum_stack_push_helper_run, h, ha]

/-- Witness for `C6_stack_push_helper`: with a 4096-byte page and
`current_frame = 0x5010` (not page aligned), the push stores the pair at
`0x5000` and moves `current_frame` there. -/
theorem C6_stack_push_helper_witness :
    (gum_stack_push_helper_run 4096
        { current_frame := 0x5010, frame_mem := fun _ => (0, 0) }
        0x401000 0x7f1000).current_frame =
      (0x5010 + (wordModulus - sizeof_GumExecFrame)) % wordModulus ∧
    (gum_stack_push_helper_run 4096
        { current_frame := 0x5010, frame_mem := fun _ => (0, 0) }
        0x401000 0x7f1000).frame_mem
      ((0x5010 + (wordModulus - sizeof_GumExecFrame)) % wordModulus) =
      (0x401000, 0x7f1000) := by
  have h := (C6_stack_push_helper 4096
    { current_frame := 0x5010, frame_mem := fun _ => (0, 0) }
    0x401000 0x7f1000).2 (by decide)
  exact ⟨h.1, h.2.1⟩

/-- Claim C7: `gum_exec_ctx_maybe_unfollow` moves the context to
`destroy_pending` (via `gum_exec_ctx_unfollow`) exactly when the state is
`unfollow_pending` and `pending_calls = 0`; in every other case it returns
`false` with the context unchanged.  In particular a context with
`pending_calls > 0` keeps its state (so one in `unfollow_pending` stays
there rather than moving to `destroy_pending`). -/
theorem C7_maybe_unfollow (now : Int) (c : UnfollowCtx) (resume_at : Nat) :
    ((gum_exec_ctx_maybe_unfollow now c resume_at).1 = true ↔
      (c.state = GumExecCtxState.unfollowPending ∧ c.pending_calls = 0)) ∧
    ((gum_exec_ctx_maybe_unfollow now c resume_at).1 = false →
      (gum_exec_ctx_maybe_unfollow now c resume_at).2 = c) ∧
    ((gum_exec_ctx_maybe_unfollow now c resume_at).1 = true →
      (gum_exec_ctx_maybe_unfollow now c resume_at).2 =
        gum_exec_ctx_unfollow now c resume_at ∧
      (gum_exec_ctx_maybe_unfollow now c resume_at).2.state =
        GumExecCtxState.destroyPending) ∧
    (0 < c.pending_calls →
      (gum_exec_ctx_maybe_unfollow now c resume_at).2.state = c.state) := by
  unfold gum_exec_ctx_maybe_unfollow
  by_cases hs : c.state = GumExecCtxState.unfollowPending
  · by_cases hp : 0 < c.pending_calls
    · refine ⟨?_, ?_, ?_, ?_⟩ <;> simp [hs, hp] <;> omega
    · refine ⟨?_, ?_, ?_, ?_⟩ <;>
        simp [hs, hp, gum_exec_ctx_unfollow] <;> omega
  · refine ⟨?_, ?_, ?_, ?_⟩ <;> simp [hs]

/-- Witness for `C7_maybe_unfollow`: a context in `unfollow_pending` with one
pending call keeps its state. -/
theorem C7_maybe_unfollow_witness :
    (gum_exec_ctx_maybe_unfollow 0
      { state := GumExecCtxState.unfollowPending, pending_calls := 1,
        current_block := some 5, resume_at := none, destroy_pending_since := 0 }
      0x400000).2.state = GumExecCtxState.unfollowPending :=
  (C7_maybe_unfollow 0
    { state := GumExecCtxState.unfollowPending, pending_calls := 1,
      current_block := some 5, resume_at := none, destroy_pending_since := 0 }
    0x400000).2.2.2 (by decide)

/-- Claim C8: `ic_entries` is fixed at construction to a value in `[2, 32]`,
defaulting to `2` when not supplied; the IC array emitted for an indirect
call/jmp site has exactly `ic_entries` entries, each of two pointer-sized
words (initially `(NULL, GUM_IC_MAGIC_EMPTY)`), and
`gum_stalker_get_ic_entry_size` returns `ic_entries * 2 * sizeof (pointer)`. -/
theorem C8_ic_entries_tunable :
    (∀ requested, ic_entries_minimum ≤ gum_stalker_new_ic_entries requested ∧
      gum_stalker_new_ic_entries requested ≤ ic_entries_maximum) ∧
    (ic_entries_minimum = 2 ∧ ic_entries_maximum = 32 ∧
      gum_stalker_new_ic_entries none = 2) ∧
    (∀ n, (gum_exec_block_emit_ic_entries n).length = n ∧
      ∀ e ∈ gum_exec_block_emit_ic_entries n, e = (0, GUM_IC_MAGIC_EMPTY)) ∧
    (∀ n, gum_stalker_get_ic_entry_size n = n * (2 * 8)) := by
  refine ⟨?_, ⟨rfl, rfl, rfl⟩, ?_, fun n => rfl⟩
  · intro requested
    match requested with
    | none => exact ⟨by decide, by decide⟩
    | some v =>
        unfold gum_stalker_new_ic_entries ic_entries_minimum ic_entries_maximum
        constructor
        · exact le_max_left 2 (min 32 v)
        · exact max_le (by decide) (min_le_left 32 v)
  · intro n
    refine ⟨List.length_replicate n _, ?_⟩
    intro e he
    exact List.eq_of_mem_replicate he

/-- Claim C9: if, after the writer flush at the end of block compilation, not
every label was resolved, compilation aborts the process through `g_error`
with the diagnostic "Failed to resolve labels" instead of returning; every
compilation that returns normally had all labels resolved (and returns the
consumed/emitted sizes). -/
theorem C9_compile_block_label_resolution (e : CompileEnd) :
    (e.all_labels_resolved = false →
      gum_exec_ctx_compile_block_finish e =
        CompileOutcome.fatal "Failed to resolve labels") ∧
    (∀ i o, gum_exec_ctx_compile_block_finish e = CompileOutcome.ok i o →
      e.all_labels_resolved = true) ∧
    (e.all_labels_resolved = true →
      gum_exec_ctx_compile_block_finish e =
        CompileOutcome.ok (e.input_cur - e.input_start) e.writer_offset) := by
  unfold gum_exec_ctx_compile_block_finish
  refine ⟨fun h => by simp [h], ?_, fun h => by simp [h]⟩
  intro i o h
  by_cases hr : e.all_labels_resolved
  · exact hr
  · simp [hr] at h

/-- Witness for `C9_compile_block_label_resolution`: an unresolved-label
compilation end aborts with the diagnostic. -/
theorem C9_compile_block_label_resolution_witness :
    gum_exec_ctx_compile_block_finish
      { all_labels_resolved := false, input_cur := 10, input_start := 4,
        writer_offset := 32 } =
    CompileOutcome.fatal "Failed to resolve labels" :=
  (C9_compile_block_label_resolution
    { all_labels_resolved := false, input_cur := 10, input_start := 4,
      writer_offset := 32 }).1 rfl

/-- Claim C10: calling `gum_stalker_remove_call_probe` with an id that is not
currently registered (the `probe_target_by_id` lookup yields `NULL`) leaves
the probe tables — including the `any_probes_attached` flag — completely
unchanged and triggers no block invalidation for any thread. -/
theorem C10_remove_unknown_probe (st : ProbeTables) (id : Nat)
    (h : probe_lookup_target st.probe_target_by_id id = none) :
    gum_stalker_remove_call_probe st id = (st, none) := by
  unfold gum_stalker_remove_call_probe
  rw [h]

/-- Witness for `C10_remove_unknown_probe`: removing id 7 from tables that
register only id 3 changes nothing. -/
theorem C10_remove_unknown_probe_witness :
    gum_stalker_remove_call_probe
      { probe_target_by_id := [(3, 0x4000)],
        probe_array_by_address := [(0x4000, [3])],
        any_probes_attached := true } 7 =
    ({ probe_target_by_id := [(3, 0x4000)],
       probe_array_by_address := [(0x4000, [3])],
       any_probes_attached := true }, none) :=
  C10_remove_unknown_probe
    { probe_target_by_id := [(3, 0x4000)],
      probe_array_by_address := [(0x4000, [3])],
      any_probes_attached := true } 7 (by decide)

end GumStalkerX86
